import Mathlib

/-!
Verification of `identify-ligands.py`, a single-pass batch script that
cross-references metabolite identifiers from a spreadsheet against the
EcoCyc and HMDB databases and classifies each row into output workbooks.

The script is embedded shallowly: pandas Series/DataFrame objects become
association lists, in-place mutation becomes explicit state passing (every
function that mutates an argument returns the argument's new state), and
Python exceptions become `Except PyError`.  The HTTP layer, the regex
engine, and the two database lookups are abstracted as oracle parameters;
everything else is translated line by line from the source.
-/

namespace IdentifyLigands

/-- Python exceptions that the script can raise. -/
inductive PyError where
  | assertionError (msg : String)
  | nameError (msg : String)
  | valueError (msg : String)
  | keyError (msg : String)
  | typeError (msg : String)
  | indexError (msg : String)
  | httpError (status : Nat)
  deriving DecidableEq

/-- A Python value as it appears in a spreadsheet row or a built dict:
`pyNone` covers both `None` and NaN, `pyMatchObj s` is an unconverted
`re.Match` object whose matched text is `s`. -/
inductive PyVal where
  | pyNone
  | pyStr (s : String)
  | pyInt (n : Int)
  | pyMatchObj (s : String)
  deriving DecidableEq

/-- A spreadsheet row / pandas Series: ordered (label, value) pairs. -/
abbrev Row := List (String × PyVal)

/-- A Python dict built by the row-building functions. -/
abbrev Dict := List (String × PyVal)

/-- A column-oriented dataframe: ordered (column name, cell list) pairs.
A cell is `none` when the underlying value is `None`/NaN. -/
abbrev Cdf := List (String × List (Option String))

/-- One lookup result record, with the four columns of `retrieve`
(`InChI`, `MetaboliteID`, `InChIKey`, `SMILES`); a field is `none` when
the lookup produced `None`. -/
structure Record where
  inchi : Option String
  mid : Option String
  inchikey : Option String
  smiles : Option String
  deriving DecidableEq

/-- The dict returned by `ecocyc_lookup` (source lines 39-55); its fields
can be strings, `None`, or raw `re.Match` objects, hence `PyVal`. -/
structure EcoRecord where
  inchi : PyVal
  inchikey : PyVal
  smiles : PyVal
  mid : PyVal
  deriving DecidableEq

/-- One row of the dataframe built by `getmatches` (source lines 118-135). -/
structure MatchRow where
  inchi : Option String
  inchikey : Option String
  hsmiles : Option String
  esmiles : Option String
  emid : Option String
  hmid : Option String
  deriving DecidableEq

/-- The five output dataframes a row can be appended to. -/
inductive Category where
  | nodata
  | simple
  | matched
  | multimatch
  | ambiguous
  deriving DecidableEq

/-- Source line 14: `ecocyc = 0`. -/
def ecocyc : Int := 0

/-- Source line 15: `hmdb = 1`. -/
def hmdb : Int := 1

/-- Source line 16: metabolite ID strings that are thrown away. -/
def invalid_mids : List String := ["NA", "multiple charge", "neg", "nan"]

/-- Source line 17: sheets that are skipped by the main loop. -/
def skipsheets : List String := ["Samplelist of essential", "TFs"]

/-- Membership test for a label in a Series/dict (Python `in row.keys()`,
and the label check done by `Series.drop`). -/
def hasKey (row : Row) (k : String) : Bool :=
  row.any (fun p => p.1 == k)

/-- Embeds `process_ogrow` (source lines 142-145).
`ogrow.drop(['EcoCyc','HMDB'], inplace=True)` raises `KeyError` when either
label is absent, otherwise removes the two entries in place; the function
then returns the remaining entries as a dict.  The second component of the
result is the caller's row after the in-place drop. -/
def process_ogrow (ogrow : Row) : Except PyError (Dict × Row) :=
  if hasKey ogrow "EcoCyc" && hasKey ogrow "HMDB" then
    .ok (ogrow.filter (fun p => !(p.1 == "EcoCyc" || p.1 == "HMDB")),
         ogrow.filter (fun p => !(p.1 == "EcoCyc" || p.1 == "HMDB")))
  else
    .error (.keyError "labels not found in axis")

/-- Embeds `joinvalues` (source lines 138-140): `sep.join(list(x))`.
Python `str.join` raises `TypeError` when a cell is not a string
(e.g. `None`/NaN). -/
def joinvalues (x : List (Option String)) (sep : String) : Except PyError String :=
  if x.all (fun v => v.isSome) then
    .ok (String.intercalate sep (x.map (fun v => v.getD "")))
  else
    .error (.typeError "sequence item: expected str instance")

/-- Joins every column of a dataframe with `joinvalues·'|'`, left to right,
propagating the first exception (the dict comprehensions at source
lines 164 and 184). -/
def joinCols : Cdf → Except PyError Dict
  | [] => .ok []
  | c :: cs =>
    match joinvalues c.2 "|", joinCols cs with
    | .error e, _ => .error e
    | .ok _, .error e => .error e
    | .ok s, .ok ds => .ok ((c.1, PyVal.pyStr s) :: ds)

/-- Python `dict.update`: existing keys are overwritten in place, new keys
are appended in the update's order. -/
def dictUpdate (d u : Dict) : Dict :=
  (d.map (fun p =>
    match u.find? (fun q => q.1 == p.1) with
    | some q => q
    | none => p)) ++
  u.filter (fun q => (d.find? (fun p => p.1 == q.1)).isNone)

/-- Embeds `getdict_ambiguousinfo` (source lines 157-164): asserts the
database tag, renames every column of the caller's dataframe in place by
prepending `e` or `h`, and returns the dict of `|`-joined columns.  The
second component of the result is the caller's dataframe after the
in-place rename. -/
def getdict_ambiguousinfo (ambig_df : Cdf) (db : Int) :
    Except PyError (Dict × Cdf) :=
  if db = ecocyc ∨ db = hmdb then
    match joinCols (ambig_df.map
        (fun c => ((if db = ecocyc then "e" else "h") ++ c.1, c.2))) with
    | .error e => .error e
    | .ok d =>
      .ok (d, ambig_df.map
        (fun c => ((if db = ecocyc then "e" else "h") ++ c.1, c.2)))
  else
    .error (.assertionError ("Invalid database: " ++ toString db))

/-- Embeds `build_ambiguousrow` (source lines 166-176).  Returns the built
dict together with the final states of the caller's row and of the one or
two info dataframes (all three are mutated in place by the callees). -/
def build_ambiguousrow (ogrow : Row) (minfo1 : Cdf) (db1 : Int)
    (minfo2 : Option Cdf) (db2 : Option Int) :
    Except PyError (Dict × Row × Cdf × Option Cdf) :=
  match process_ogrow ogrow with
  | .error e => .error e
  | .ok (d, row2) =>
    match getdict_ambiguousinfo minfo1 db1 with
    | .error e => .error e
    | .ok (u1, m1) =>
      match minfo2, db2 with
      | some m2df, some dbv =>
        match getdict_ambiguousinfo m2df dbv with
        | .error e => .error e
        | .ok (u2, m2) => .ok (dictUpdate (dictUpdate d u1) u2, row2, m1, some m2)
      | _, _ => .ok (dictUpdate d u1, row2, m1, minfo2)

/-- Column-oriented view of the dataframe built by `getmatches`, in its
column order `['InChI','InChIKey','hSMILES','eSMILES','eMetaboliteID',
'hMetaboliteID']` (source line 118). -/
def matchCols (ms : List MatchRow) : Cdf :=
  [("InChI", ms.map (fun m => m.inchi)),
   ("InChIKey", ms.map (fun m => m.inchikey)),
   ("hSMILES", ms.map (fun m => m.hsmiles)),
   ("eSMILES", ms.map (fun m => m.esmiles)),
   ("eMetaboliteID", ms.map (fun m => m.emid)),
   ("hMetaboliteID", ms.map (fun m => m.hmid))]

/-- Embeds `build_matchrow` (source lines 178-185).  The second component
of the result is the caller's row after the in-place drop. -/
def build_matchrow (ogrow : Row) (ms : List MatchRow) :
    Except PyError (Dict × Row) :=
  match process_ogrow ogrow with
  | .error e => .error e
  | .ok (d, row2) =>
    match joinCols (matchCols ms) with
    | .error e => .error e
    | .ok u => .ok (dictUpdate d u, row2)

/-- Embeds `getlists` (source lines 94-105).  After the assertion on
line 96 passes, the first iteration of the loop (`i = 'EcoCyc'`) converts
the cell with `str`, splits it, and then evaluates the comprehension
`[ j for j in ids[i][j] ... ]` on line 103, whose iterable `ids[i][j]`
mentions the unbound name `j`: every call that passes the assertion raises
`NameError` before any list is returned, so the split result is
unobservable and is not modelled further. -/
def getlists (excelrow : Row) : Except PyError (List String × List String) :=
  if hasKey excelrow "HMDB" && hasKey excelrow "EcoCyc" then
    .error (.nameError "name j is not defined")
  else
    .error (.assertionError "DB columns not in provided row")

/-- Selects the lookup used by `retrieve` for a tag (source line 114):
`ecocyc_lookup` when `db == ecocyc`, else `hmdb_lookup`.  Both lookups are
abstracted as total oracles from a metabolite ID to a result record. -/
def lookupFor (db : Int) (elk hlk : String → Record) (m : String) : Record :=
  if db = ecocyc then elk m else hlk m

/-- Is a record free of missing (`None`/NaN) fields?  `DataFrame.dropna`
keeps exactly such rows. -/
def allFieldsPresent (r : Record) : Bool :=
  r.inchi.isSome && r.mid.isSome && r.inchikey.isSome && r.smiles.isSome

/-- The dataframe body of `retrieve` (source lines 111-116): one row per
metabolite ID, labelled by its position, then `dropna()`, which keeps the
original integer labels of the surviving rows. -/
def retrieveOk (mids : List String) (lk : String → Record) :
    List (Nat × Record) :=
  (mids.enum.map (fun p => (p.1, lk p.2))).filter
    (fun p => allFieldsPresent p.2)

/-- Embeds `retrieve` (source lines 107-116): asserts the database tag,
fills one row per metabolite ID from the selected lookup, and drops every
row with a missing field. -/
def retrieve (mids : List String) (db : Int) (elk hlk : String → Record) :
    Except PyError (List (Nat × Record)) :=
  if db = hmdb ∨ db = ecocyc then
    .ok (retrieveOk mids (lookupFor db elk hlk))
  else
    .error (.assertionError ("Invalid database: " ++ toString db))

/-- Column-oriented view of a `retrieve` result, in its column order
`['InChI','MetaboliteID','InChIKey','SMILES']` (source line 107), as
passed to `build_ambiguousrow`. -/
def retrieveCdf (info : List (Nat × Record)) : Cdf :=
  [("InChI", info.map (fun p => p.2.inchi)),
   ("MetaboliteID", info.map (fun p => p.2.mid)),
   ("InChIKey", info.map (fun p => p.2.inchikey)),
   ("SMILES", info.map (fun p => p.2.smiles))]

/-- Embeds `getmatches` (source lines 118-135).  `matchkeys` is the set
intersection of the two `InChIKey` columns (line 121); with no match the
function returns `None`.  For each match key, the HMDB values come from
the first matching `hinfo` row via positional `.iloc[0]` (line 127), but
the EcoCyc values are read with `einfo.loc[...]['MetaboliteID'][0]`
(lines 131-132), which on an integer-labelled series is LABEL-based
indexing: it returns the entry labelled `0` of the filtered series when
that label survives the filter and raises `KeyError` otherwise. -/
def getmatches (einfo hinfo : List (Nat × Record)) :
    Except PyError (Option (List MatchRow)) :=
  let hkeys := hinfo.map (fun p => p.2.inchikey)
  let matchkeys :=
    ((einfo.map (fun p => p.2.inchikey)).dedup).filter (fun k => hkeys.contains k)
  if matchkeys.isEmpty then
    .ok none
  else
    match matchkeys.mapM (fun key =>
      (match (hinfo.filter (fun p => p.2.inchikey == key)).head? with
       | none => Except.error (PyError.indexError "index 0 is out of bounds")
       | some hp =>
         match (einfo.filter (fun p => p.2.inchikey == key)).find?
             (fun p => p.1 == 0) with
         | none => Except.error (PyError.keyError "0")
         | some ep =>
           Except.ok { inchi := hp.2.inchi, inchikey := hp.2.inchikey,
                       hsmiles := hp.2.smiles, esmiles := ep.2.smiles,
                       emid := ep.2.mid, hmid := hp.2.mid } :
         Except PyError MatchRow)) with
    | .error e => .error e
    | .ok rows => .ok (some rows)

/-- Embeds the per-row classification of the main loop (source
lines 226-266), taking as inputs the two ID lists that `getlists` is
meant to produce for the row (the faithful `getlists` above is settled
separately) and the two lookup oracles.  The calls
`retrieve(emids, ecocyc)` and `retrieve(hmids, hmdb)` pass literal valid
tags, so their assertions pass and they are rendered by `retrieveOk`.
The single-database branch reproduces source line 236, where
`ids, database = (hmids, hmdb if len(emids)==0 else emids, ecocyc)`
builds a three-element tuple — the conditional expression is only the
middle element — and unpacking it into two names raises `ValueError`
before `retrieve` is reached, so `build_simplerow` and the `simple` and
`ambiguous` appends of that branch are dead code.  The result is the
list of output dataframes the row's data was appended to, in order,
paired with the exception that aborted the iteration, if any. -/
def processRow (row : Row) (emids hmids : List String)
    (elk hlk : String → Record) : List Category × Option PyError :=
  match emids, hmids with
  | [], [] =>
    match process_ogrow row with
    | .error e => ([], some e)
    | .ok _ => ([Category.nodata], none)
  | [], _ :: _ =>
    ([], some (PyError.valueError "too many values to unpack (expected 2)"))
  | _ :: _, [] =>
    ([], some (PyError.valueError "too many values to unpack (expected 2)"))
  | _ :: _, _ :: _ =>
    match getmatches (retrieveOk emids elk) (retrieveOk hmids hlk) with
    | .error e => ([], some e)
    | .ok none =>
      match build_ambiguousrow row (retrieveCdf (retrieveOk emids elk)) ecocyc
          (some (retrieveCdf (retrieveOk hmids hlk))) (some hmdb) with
      | .error e => ([], some e)
      | .ok _ => ([Category.ambiguous], none)
    | .ok (some ms) =>
      match build_matchrow row ms with
      | .error e => ([], some e)
      | .ok (_, row2) =>
        match build_ambiguousrow row2 (retrieveCdf (retrieveOk emids elk)) ecocyc
            (some (retrieveCdf (retrieveOk hmids hlk))) (some hmdb) with
        | .error e =>
          ([if ms.length = 1 then Category.matched else Category.multimatch], some e)
        | .ok _ =>
          ([if ms.length = 1 then Category.matched else Category.multimatch,
            Category.ambiguous], none)

/-- The URL requested by `ecocyc_lookup` (source lines 39-42):
the endpoint with `'ECOLI:' + mid` appended. -/
def eurl (mid : String) : String :=
  "https://websvc.biocyc.org/getxml?" ++ "ECOLI" ++ ":" ++ mid

/-- The three regex patterns searched by `ecocyc_lookup`
(source lines 47-49). -/
inductive RePat where
  | inchiPat
  | inchikeyPat
  | smilesPat
  deriving DecidableEq

/-- How a `re.search` result is stored when not all three patterns were
found (source lines 50-55): `None` stays `None`, a hit stays an
unconverted match object. -/
def toMVal : Option String → PyVal
  | none => PyVal.pyNone
  | some s => PyVal.pyMatchObj s

/-- Embeds `ecocyc_lookup` (source lines 39-55).  `net` maps a URL to the
HTTP response (status code, body); `regexSearch` maps one of the three
patterns and a body to the matched text, if any.  `raise_for_status()`
raises for every 4xx/5xx status.  The three fields are converted to
strings with `.group()` only when all three searches hit; otherwise the
dict keeps the raw search results.  The first component of the result is
the list of URLs requested, in order. -/
def ecocyc_lookup (mid : String) (net : String → Nat × String)
    (regexSearch : RePat → String → Option String) :
    List String × Except PyError EcoRecord :=
  if 400 ≤ (net (eurl mid)).1 ∧ (net (eurl mid)).1 < 600 then
    ([eurl mid], .error (.httpError (net (eurl mid)).1))
  else
    match regexSearch RePat.inchiPat (net (eurl mid)).2,
          regexSearch RePat.inchikeyPat (net (eurl mid)).2,
          regexSearch RePat.smilesPat (net (eurl mid)).2 with
    | some a, some b, some c =>
      ([eurl mid], .ok ⟨PyVal.pyStr a, PyVal.pyStr b, PyVal.pyStr c, PyVal.pyStr mid⟩)
    | i, k, s =>
      ([eurl mid], .ok ⟨toMVal i, toMVal k, toMVal s, PyVal.pyStr mid⟩)

/-- The keys of `fdict` (source line 197): one output workbook each. -/
def fdictKeys : List String := ["nodata", "simple", "match", "multimatch", "ambiguous"]

/-- The files created by the write loop (source lines 281-287): one
workbook per `fdict` key, in the output directory. -/
def writtenFiles (outdir : String) : List String :=
  fdictKeys.map (fun n => outdir ++ "/" ++ n ++ ".xlsx")

/-- One sheet of the input workbook: its tab name, whether the `EcoCyc`
and `HMDB` columns are present after the `Unnamed` drop (source
lines 214-216), and its rows, row 0 being the subheader row read by
`sheet.iloc[0]` (source line 217). -/
structure Sheet where
  name : String
  hasDB : Bool
  rows : List Row

/-- The row loop of one sheet (source lines 221-266): each data row first
goes through `getlists` (line 224) and then through the classification
embedded by `processRow`; the first exception aborts the script.  Because
`getlists` never returns (its line-103 `NameError`), the recursive
continuation is reached only when the data-row list is empty. -/
def sheetRowsLoop (dataRows : List Row) (elk hlk : String → Record) :
    Except PyError Unit :=
  match dataRows with
  | [] => .ok ()
  | r :: rest =>
    match getlists r with
    | .error e => .error e
    | .ok (emids, hmids) =>
      match (processRow r emids hmids elk hlk).2 with
      | some e => .error e
      | none => sheetRowsLoop rest elk hlk

/-- Processing of one non-skipped sheet (source lines 210-266): the
column assertion (line 216), the subheader read `sheet.iloc[0]`
(line 217, which raises `IndexError` on an empty sheet), then the row
loop over rows 1..n-1. -/
def processSheet (s : Sheet) (elk hlk : String → Record) :
    Except PyError Unit :=
  if s.hasDB then
    match s.rows with
    | [] => .error (.indexError "single positional indexer is out-of-bounds")
    | _ :: dataRows => sheetRowsLoop dataRows elk hlk
  else
    .error (.assertionError "Sheet lacks EcoCyc and HMDB columns")

/-- The sheet loop (source lines 205-277): sheets named in `skipsheets`
are skipped; every remaining sheet is processed and, on success, its name
is appended to each of the five `fdict` lists (lines 272-276); the first
exception aborts the script before anything is written. -/
def sheetLoop (sheets : List Sheet) (elk hlk : String → Record) :
    Except PyError (List String) :=
  match sheets with
  | [] => .ok []
  | s :: rest =>
    if skipsheets.contains s.name then
      sheetLoop rest elk hlk
    else
      match processSheet s elk hlk with
      | .error e => .error e
      | .ok _ =>
        match sheetLoop rest elk hlk with
        | .error e => .error e
        | .ok ns => .ok (s.name :: ns)

/-- The script after loading the workbook (source lines 204-287): the
sheet loop runs first, and only when it completes does the write loop run,
creating the five workbooks of `writtenFiles`, each holding one sheet per
processed input sheet, in order (lines 281-287).  An aborted run reaches
no `to_excel`/`save` call, so it creates no workbook. -/
def runScript (outdir : String) (sheets : List Sheet)
    (elk hlk : String → Record) :
    Except PyError (List String × List String) :=
  match sheetLoop sheets elk hlk with
  | .error e => .error e
  | .ok ns => .ok (writtenFiles outdir, ns)

/-- Example lookup oracle: every metabolite ID resolves to a complete
record. -/
def exLookup : String → Record :=
  fun m => ⟨some "InChIx", some m, some "KEYx", some "SMIx"⟩

/-- Example lookup oracle for the `retrieve` dropna theorem: the ID `a`
resolves completely, every other ID comes back without a SMILES. -/
def c8elk : String → Record :=
  fun m => if m == "a" then ⟨some "I", some m, some "K", some "S"⟩
           else ⟨some "I", some m, some "K", none⟩

/-- Example HTTP oracle: every URL answers 200 with body `body`. -/
def c9netExample : String → Nat × String := fun _ => (200, "body")

/-- Example regex oracle: the InChI and SMILES patterns hit, the InChIKey
pattern does not. -/
def c9rsExample : RePat → String → Option String := fun p _ =>
  match p with
  | RePat.inchiPat => some "X"
  | RePat.inchikeyPat => none
  | RePat.smilesPat => some "Y"

/-- The dropped-labels filter applied by `process_ogrow` never keeps an
entry labelled `EcoCyc`. -/
theorem hasKey_dropped (row : Row) :
    hasKey (row.filter (fun p => !(p.1 == "EcoCyc" || p.1 == "HMDB")))
      "EcoCyc" = false := by
  simp only [hasKey, List.any_eq_false, List.mem_filter]
  rintro p ⟨_, hcond⟩
  simp only [Bool.not_eq_true'] at hcond
  simp only [Bool.or_eq_false_iff] at hcond
  simp [hcond.1]

/-- `process_ogrow` raises `KeyError` on a row whose `EcoCyc` entry was
already dropped. -/
theorem process_ogrow_dropped_err (r : Row) (h : hasKey r "EcoCyc" = false) :
    process_ogrow r = Except.error (PyError.keyError "labels not found in axis") := by
  unfold process_ogrow
  rw [h]
  rfl

/-- `build_ambiguousrow` raises `KeyError` when the row's `EcoCyc` entry
was already dropped. -/
theorem build_ambiguousrow_dropped_err (r : Row) (m1 : Cdf) (db1 : Int)
    (m2 : Option Cdf) (db2 : Option Int) (h : hasKey r "EcoCyc" = false) :
    build_ambiguousrow r m1 db1 m2 db2 =
      Except.error (PyError.keyError "labels not found in axis") := by
  unfold build_ambiguousrow
  rw [process_ogrow_dropped_err r h]

/-- When `process_ogrow` succeeds, the row it hands back is the original
row with the `EcoCyc` and `HMDB` entries removed. -/
theorem process_ogrow_ok_eq (r : Row) (pr : Dict × Row)
    (h : process_ogrow r = Except.ok pr) :
    pr.2 = r.filter (fun p => !(p.1 == "EcoCyc" || p.1 == "HMDB")) := by
  unfold process_ogrow at h
  split at h
  · injection h with h
    exact congrArg Prod.snd h.symm
  · cases h

/-- When `build_matchrow` succeeds, the row it hands back is the original
row with the `EcoCyc` and `HMDB` entries removed. -/
theorem build_matchrow_ok_row2 (r : Row) (ms : List MatchRow) (pr : Dict × Row)
    (h : build_matchrow r ms = Except.ok pr) :
    pr.2 = r.filter (fun p => !(p.1 == "EcoCyc" || p.1 == "HMDB")) := by
  unfold build_matchrow at h
  cases hpo : process_ogrow r with
  | error e => rw [hpo] at h; cases h
  | ok pr0 =>
    obtain ⟨d0, r2⟩ := pr0
    rw [hpo] at h
    cases hj : joinCols (matchCols ms) with
    | error e => rw [hj] at h; cases h
    | ok u =>
      rw [hj] at h
      injection h with h
      have h2 := congrArg Prod.snd h.symm
      have h3 := process_ogrow_ok_eq r (d0, r2) hpo
      exact h2.trans h3

/-- A failing `joinvalues` always raises `TypeError`. -/
theorem joinvalues_error_eq (x : List (Option String)) (sep : String)
    (e : PyError) (h : joinvalues x sep = Except.error e) :
    e = PyError.typeError "sequence item: expected str instance" := by
  unfold joinvalues at h
  split at h
  · cases h
  · injection h with h
    exact h.symm

/-- A failing `joinCols` always raises `TypeError`. -/
theorem joinCols_error_eq (cs : Cdf) :
    ∀ (e : PyError), joinCols cs = Except.error e →
      e = PyError.typeError "sequence item: expected str instance" := by
  induction cs with
  | nil => intro e h; unfold joinCols at h; cases h
  | cons c cs ih =>
    intro e h
    unfold joinCols at h
    cases hjv : joinvalues c.2 "|" with
    | error e1 =>
      rw [hjv] at h
      injection h with h
      rw [← h]
      exact joinvalues_error_eq c.2 "|" e1 hjv
    | ok s =>
      rw [hjv] at h
      cases hrest : joinCols cs with
      | error e2 =>
        rw [hrest] at h
        injection h with h
        rw [← h]
        exact ih e2 hrest
      | ok ds => rw [hrest] at h; cases h

/-- C1, counterexample: a row whose EcoCyc ID list is empty but whose HMDB
ID list is not enters the single-database branch, where the tuple
unpacking on source line 236 raises `ValueError`; the row's data is
appended to none of the five output dataframes, not to exactly one. -/
theorem processRow_zero_appends_counterexample :
    (processRow [("Protein", PyVal.pyStr "thrA"), ("EcoCyc", PyVal.pyStr "nan"),
        ("HMDB", PyVal.pyStr "HMDB00122")] [] ["HMDB00122"] exLookup exLookup).1.length ≠ 1 ∧
    (processRow [("Protein", PyVal.pyStr "thrA"), ("EcoCyc", PyVal.pyStr "nan"),
        ("HMDB", PyVal.pyStr "HMDB00122")] [] ["HMDB00122"] exLookup exLookup).2 =
      some (PyError.valueError "too many values to unpack (expected 2)") :=
  ⟨by decide, rfl⟩

/-- C1, amended: every non-header row whose loop iteration completes
without raising an exception is appended to exactly one of the five output
dataframes.  (Rows that raise are appended to at most one first: the
single-database branch raises `ValueError` before any append, and a row
with cross-database matches is appended to the match or multimatch
dataframe and then raises `KeyError` when `process_ogrow` drops the
already-dropped labels a second time, so its additional deliberate append
to the ambiguous dataframe never completes.) -/
theorem processRow_exactly_one_append_when_ok (row : Row)
    (emids hmids : List String) (elk hlk : String → Record)
    (h : (processRow row emids hmids elk hlk).2 = none) :
    (processRow row emids hmids elk hlk).1.length = 1 := by
  cases emids with
  | nil =>
    cases hmids with
    | nil =>
      cases hpo : process_ogrow row with
      | error e => simp [processRow, hpo] at h
      | ok pr => simp [processRow, hpo]
    | cons b bs => simp [processRow] at h
  | cons a as =>
    cases hmids with
    | nil => simp [processRow] at h
    | cons b bs =>
      cases hgm : getmatches (retrieveOk (a :: as) elk) (retrieveOk (b :: bs) hlk) with
      | error e => simp [processRow, hgm] at h
      | ok om =>
        cases om with
        | none =>
          cases hba : build_ambiguousrow row (retrieveCdf (retrieveOk (a :: as) elk))
              ecocyc (some (retrieveCdf (retrieveOk (b :: bs) hlk))) (some hmdb) with
          | error e => simp [processRow, hgm, hba] at h
          | ok x => simp [processRow, hgm, hba]
        | some ms =>
          cases hbm : build_matchrow row ms with
          | error e => simp [processRow, hgm, hbm] at h
          | ok pr =>
            obtain ⟨d0, row2⟩ := pr
            have hr2 : row2 = row.filter (fun p => !(p.1 == "EcoCyc" || p.1 == "HMDB")) :=
              build_matchrow_ok_row2 row ms (d0, row2) hbm
            have hdead : build_ambiguousrow row2 (retrieveCdf (retrieveOk (a :: as) elk))
                ecocyc (some (retrieveCdf (retrieveOk (b :: bs) hlk))) (some hmdb) =
                Except.error (PyError.keyError "labels not found in axis") := by
              apply build_ambiguousrow_dropped_err
              rw [hr2]
              exact hasKey_dropped row
            simp [processRow, hgm, hbm, hdead] at h

/-- C1, witness: a row with no valid IDs in either database is appended to
exactly one dataframe (nodata). -/
theorem processRow_exactly_one_append_witness :
    (processRow [("EcoCyc", PyVal.pyStr "nan"), ("HMDB", PyVal.pyStr "nan")] [] []
      exLookup exLookup).1.length = 1 :=
  processRow_exactly_one_append_when_ok _ _ _ _ _ rfl

/-- C2: `getlists` never returns the split-and-filtered ID lists.  The
comprehension on source line 103 iterates `ids[i][j]` where `j` is
unbound, so every row whose `EcoCyc` and `HMDB` cells are present makes
`getlists` raise `NameError` instead of returning two lists. -/
theorem getlists_nameerror_eval :
    getlists [("EcoCyc", PyVal.pyStr "EG10241"), ("HMDB", PyVal.pyStr "HMDB00122")] =
      Except.error (PyError.nameError "name j is not defined") := rfl

/-- C3: a row whose ID list is empty for exactly one database never
reaches `retrieve`: source line 236 builds the three-element tuple
`(hmids, hmdb if len(emids)==0 else emids, ecocyc)` and unpacking it into
the two names `ids, database` raises `ValueError`, so the row is appended
neither to simple nor to ambiguous. -/
theorem single_database_branch_valueerror_eval :
    processRow [("EcoCyc", PyVal.pyStr "EG10998"), ("HMDB", PyVal.pyStr "nan")]
      ["EG10998"] [] exLookup exLookup =
    ([], some (PyError.valueError "too many values to unpack (expected 2)")) := rfl

/-- C4: `getmatches` does return `None` on disjoint InChIKey sets, but on
a non-empty intersection it raises `KeyError` whenever the matching EcoCyc
record does not carry the dataframe index label 0, because source line 131
reads `einfo.loc[...]['MetaboliteID'][0]` with label-based indexing; here
the single intersecting key `KEY2` sits in einfo's row labelled 1. -/
theorem getmatches_label_bug_eval :
    getmatches
      [(0, ⟨some "i1", some "e1", some "KEY1", some "s1"⟩),
       (1, ⟨some "i2", some "e2", some "KEY2", some "s2"⟩)]
      [(0, ⟨some "i2", some "h2", some "KEY2", some "t2"⟩)] =
      Except.error (PyError.keyError "0") ∧
    getmatches
      [(0, ⟨some "i1", some "e1", some "KEY1", some "s1"⟩),
       (1, ⟨some "i2", some "e2", some "KEY2", some "s2"⟩)]
      [(0, ⟨some "i9", some "h9", some "KEY9", some "t9"⟩)] =
      Except.ok none :=
  ⟨rfl, rfl⟩

/-- When the sheet loop completes, the processed-sheet name list is the
input tab list minus the skipped sheets, in order. -/
theorem sheetLoop_ok_names (elk hlk : String → Record) :
    ∀ (sheets : List Sheet) (ns : List String),
      sheetLoop sheets elk hlk = Except.ok ns →
      ns = (sheets.filter (fun s => !(skipsheets.contains s.name))).map
        (fun s => s.name) := by
  intro sheets
  induction sheets with
  | nil =>
    intro ns h
    unfold sheetLoop at h
    injection h with h
    rw [← h]
    rfl
  | cons s rest ih =>
    intro ns h
    unfold sheetLoop at h
    split at h
    · rename_i hskip
      have hmem : s.name ∈ skipsheets := by simpa using hskip
      simp [List.filter_cons, hmem, ih ns h]
    · rename_i hskip
      have hb : skipsheets.contains s.name = false := by
        cases hcb : skipsheets.contains s.name
        · rfl
        · exact absurd hcb hskip
      have hmem : s.name ∉ skipsheets := by simpa using hb
      cases hps : processSheet s elk hlk with
      | error e => rw [hps] at h; cases h
      | ok u =>
        rw [hps] at h
        cases hrec : sheetLoop rest elk hlk with
        | error e => rw [hrec] at h; cases h
        | ok ns2 =>
          rw [hrec] at h
          have h2 : (Except.ok (s.name :: ns2) : Except PyError (List String)) =
              Except.ok ns := h
          injection h2 with h3
          rw [← h3]
          simp [List.filter_cons, hmem, ih ns2 hrec]

/-- C5, counterexample: with sheets `Metabolites` (subheader only) and
`TFs` the run completes but writes workbooks whose sheet list omits `TFs`,
so the outputs do not have one sheet per input sheet; and as soon as any
non-skipped sheet has a data row, `getlists` raises `NameError` and the
script aborts before the write loop, creating no workbook at all. -/
theorem runScript_counterexample :
    runScript "processed-data"
      [⟨"Metabolites", true, [[("EcoCyc", PyVal.pyStr "EcoCyc"), ("HMDB", PyVal.pyStr "HMDB")]]⟩,
       ⟨"TFs", true, [[("EcoCyc", PyVal.pyStr "EcoCyc"), ("HMDB", PyVal.pyStr "HMDB")]]⟩]
      exLookup exLookup =
      Except.ok (writtenFiles "processed-data", ["Metabolites"]) ∧
    (["Metabolites"] : List String) ≠ ["Metabolites", "TFs"] ∧
    runScript "processed-data"
      [⟨"Metabolites", true,
        [[("EcoCyc", PyVal.pyStr "EcoCyc"), ("HMDB", PyVal.pyStr "HMDB")],
         [("EcoCyc", PyVal.pyStr "EG10241"), ("HMDB", PyVal.pyStr "HMDB00122")]]⟩]
      exLookup exLookup =
      Except.error (PyError.nameError "name j is not defined") :=
  ⟨rfl, by decide, rfl⟩

/-- C5, amended: the write loop runs only when the sheet loop completes
without an exception (with the line-103 `NameError` of `getlists` this
requires that no non-skipped sheet has a data row); it then creates
exactly five workbooks — nodata, simple, match, multimatch, ambiguous —
each containing one sheet per non-skipped input sheet, in order.  An
aborted run creates no workbook. -/
theorem runScript_five_files (outdir : String) (sheets : List Sheet)
    (elk hlk : String → Record) (files ns : List String)
    (h : runScript outdir sheets elk hlk = Except.ok (files, ns)) :
    files = writtenFiles outdir ∧ files.length = 5 ∧
    ns = (sheets.filter (fun s => !(skipsheets.contains s.name))).map
      (fun s => s.name) := by
  unfold runScript at h
  cases hsl : sheetLoop sheets elk hlk with
  | error e => rw [hsl] at h; cases h
  | ok ns2 =>
    rw [hsl] at h
    have h2 : (Except.ok (writtenFiles outdir, ns2) :
        Except PyError (List String × List String)) = Except.ok (files, ns) := h
    injection h2 with h3
    have hf : writtenFiles outdir = files := congrArg Prod.fst h3
    have hn : ns2 = ns := congrArg Prod.snd h3
    refine ⟨hf.symm, ?_, ?_⟩
    · rw [← hf]
      rfl
    · rw [← hn]
      exact sheetLoop_ok_names elk hlk sheets ns2 hsl

/-- C5, witness: a completing run over sheets `Metabolites` and `TFs`
writes the five workbooks, each with the single non-skipped sheet. -/
theorem runScript_five_files_witness :
    writtenFiles "processed-data" = writtenFiles "processed-data" ∧
    (writtenFiles "processed-data").length = 5 ∧
    (["Metabolites"] : List String) =
      (([⟨"Metabolites", true, [[("EcoCyc", PyVal.pyStr "EcoCyc"), ("HMDB", PyVal.pyStr "HMDB")]]⟩,
         ⟨"TFs", true, [[("EcoCyc", PyVal.pyStr "EcoCyc"), ("HMDB", PyVal.pyStr "HMDB")]]⟩] :
        List Sheet).filter (fun s => !(skipsheets.contains s.name))).map
        (fun s => s.name) :=
  runScript_five_files "processed-data"
    [⟨"Metabolites", true, [[("EcoCyc", PyVal.pyStr "EcoCyc"), ("HMDB", PyVal.pyStr "HMDB")]]⟩,
     ⟨"TFs", true, [[("EcoCyc", PyVal.pyStr "EcoCyc"), ("HMDB", PyVal.pyStr "HMDB")]]⟩]
    exLookup exLookup (writtenFiles "processed-data") ["Metabolites"] rfl

/-- When `getdict_ambiguousinfo` succeeds with a valid tag, the dataframe
it hands back is the input with every column name prefixed. -/
theorem getdict_ok_rename (df : Cdf) (db : Int) (u : Dict) (dfr : Cdf)
    (hdb : db = ecocyc ∨ db = hmdb)
    (h : getdict_ambiguousinfo df db = Except.ok (u, dfr)) :
    dfr = df.map (fun c => ((if db = ecocyc then "e" else "h") ++ c.1, c.2)) := by
  unfold getdict_ambiguousinfo at h
  rw [if_pos hdb] at h
  cases hj : joinCols (df.map (fun c => ((if db = ecocyc then "e" else "h") ++ c.1, c.2))) with
  | error e => rw [hj] at h; cases h
  | ok dd =>
    rw [hj] at h
    injection h with h
    exact (congrArg Prod.snd h).symm

/-- C6: `retrieve` and `getdict_ambiguousinfo` raise `AssertionError`
exactly for database tags other than ecocyc (0) and hmdb (1), and
`getlists` raises `AssertionError` exactly for rows lacking an `EcoCyc` or
`HMDB` key; with a valid tag and both columns present, no call raises
`AssertionError`. -/
theorem assertion_guards (db : Int) (mids : List String)
    (elk hlk : String → Record) (df : Cdf) (row : Row) :
    (db ≠ ecocyc ∧ db ≠ hmdb →
      retrieve mids db elk hlk =
        Except.error (PyError.assertionError ("Invalid database: " ++ toString db)) ∧
      getdict_ambiguousinfo df db =
        Except.error (PyError.assertionError ("Invalid database: " ++ toString db))) ∧
    (db = ecocyc ∨ db = hmdb →
      (∀ m, retrieve mids db elk hlk ≠ Except.error (PyError.assertionError m)) ∧
      (∀ m, getdict_ambiguousinfo df db ≠ Except.error (PyError.assertionError m))) ∧
    ((hasKey row "HMDB" && hasKey row "EcoCyc") = false →
      getlists row =
        Except.error (PyError.assertionError "DB columns not in provided row")) ∧
    ((hasKey row "HMDB" && hasKey row "EcoCyc") = true →
      ∀ m, getlists row ≠ Except.error (PyError.assertionError m)) := by
  refine ⟨?_, ?_, ?_, ?_⟩
  · rintro ⟨h1, h2⟩
    constructor
    · unfold retrieve
      rw [if_neg]
      rintro (hc | hc)
      · exact h2 hc
      · exact h1 hc
    · unfold getdict_ambiguousinfo
      rw [if_neg]
      rintro (hc | hc)
      · exact h1 hc
      · exact h2 hc
  · intro hv
    constructor
    · intro m
      unfold retrieve
      rw [if_pos hv.symm]
      exact fun hcon => Except.noConfusion hcon
    · intro m
      unfold getdict_ambiguousinfo
      rw [if_pos hv]
      cases hj : joinCols (df.map (fun c => ((if db = ecocyc then "e" else "h") ++ c.1, c.2))) with
      | error e =>
        intro hcon
        injection hcon with hcon2
        rw [joinCols_error_eq _ e hj] at hcon2
        cases hcon2
      | ok dd =>
        exact fun hcon => Except.noConfusion hcon
  · intro hfalse
    unfold getlists
    rw [hfalse]
    rfl
  · intro htrue m
    unfold getlists
    rw [htrue]
    intro hcon
    injection hcon with hcon2
    cases hcon2

/-- C6, witness: tag 5 makes `retrieve` raise `AssertionError`, and a row
without the database columns makes `getlists` raise `AssertionError`. -/
theorem assertion_guards_witness :
    retrieve [] 5 exLookup exLookup =
      Except.error (PyError.assertionError ("Invalid database: " ++ toString (5 : Int))) ∧
    getlists [] =
      Except.error (PyError.assertionError "DB columns not in provided row") :=
  ⟨((assertion_guards 5 [] exLookup exLookup [] []).1 ⟨by decide, by decide⟩).1,
   (assertion_guards 5 [] exLookup exLookup [] []).2.2.1 rfl⟩

/-- C7: for every metabolite ID, `ecocyc_lookup` issues exactly one HTTP
GET, to the EcoCyc endpoint URL for that ID, and raises whenever the
response status is a 4xx/5xx error; since the request list always has
length one, no retry or recovery ever happens. -/
theorem ecocyc_lookup_one_get (mid : String) (net : String → Nat × String)
    (regexSearch : RePat → String → Option String) :
    (ecocyc_lookup mid net regexSearch).1 = [eurl mid] ∧
    (400 ≤ (net (eurl mid)).1 → (net (eurl mid)).1 < 600 →
      (ecocyc_lookup mid net regexSearch).2 =
        Except.error (PyError.httpError (net (eurl mid)).1)) := by
  constructor
  · unfold ecocyc_lookup
    split
    · rfl
    · split <;> rfl
  · intro h1 h2
    unfold ecocyc_lookup
    rw [if_pos ⟨h1, h2⟩]

/-- C7, witness: a 404 response yields one request and an `HTTPError`. -/
theorem ecocyc_lookup_one_get_witness :
    (ecocyc_lookup "EG10998" (fun _ => (404, "")) c9rsExample).1 = [eurl "EG10998"] ∧
    (ecocyc_lookup "EG10998" (fun _ => (404, "")) c9rsExample).2 =
      Except.error (PyError.httpError 404) :=
  ⟨(ecocyc_lookup_one_get "EG10998" (fun _ => (404, "")) c9rsExample).1,
   (ecocyc_lookup_one_get "EG10998" (fun _ => (404, "")) c9rsExample).2
     (by decide) (by decide)⟩

/-- C8: every record in the dataframe returned by `retrieve` has all four
fields (InChI, MetaboliteID, InChIKey, SMILES) present, and any lookup
result containing a missing (`None`/NaN) field is silently dropped. -/
theorem retrieve_dropna (mids : List String) (db : Int)
    (elk hlk : String → Record) (l : List (Nat × Record))
    (h : retrieve mids db elk hlk = Except.ok l) :
    (∀ p ∈ l, allFieldsPresent p.2 = true) ∧
    (∀ i r, (i, r) ∈ mids.enum.map (fun p => (p.1, lookupFor db elk hlk p.2)) →
      allFieldsPresent r = false → (i, r) ∉ l) := by
  have hl : l = retrieveOk mids (lookupFor db elk hlk) := by
    unfold retrieve at h
    split at h
    · injection h with h
      exact h.symm
    · cases h
  subst hl
  constructor
  · intro p hp
    unfold retrieveOk at hp
    exact (List.mem_filter.mp hp).2
  · intro i r hmem hfalse hcontra
    unfold retrieveOk at hcontra
    have h2 := (List.mem_filter.mp hcontra).2
    have h3 : allFieldsPresent r = true := h2
    rw [hfalse] at h3
    exact Bool.noConfusion h3

/-- C8, witness: with two IDs where the second lookup lacks a SMILES, the
returned dataframe keeps only the first, complete record. -/
theorem retrieve_dropna_witness :
    (∀ p ∈ [((0 : Nat), (⟨some "I", some "a", some "K", some "S"⟩ : Record))],
      allFieldsPresent p.2 = true) ∧
    (∀ i r, (i, r) ∈ (["a", "b"].enum.map (fun p => (p.1, lookupFor 0 c8elk c8elk p.2))) →
      allFieldsPresent r = false →
      (i, r) ∉ [((0 : Nat), (⟨some "I", some "a", some "K", some "S"⟩ : Record))]) :=
  retrieve_dropna ["a", "b"] 0 c8elk c8elk
    [((0 : Nat), (⟨some "I", some "a", some "K", some "S"⟩ : Record))] rfl

/-- C9: `ecocyc_lookup` converts the three structure fields all-or-nothing:
on a successful response the returned dict holds plain strings for InChI,
InChIKey and SMILES exactly when all three regex searches hit; otherwise
the fields that were found stay unconverted match objects and the missing
ones stay `None` (the `toMVal` conversion). -/
theorem ecocyc_lookup_all_or_nothing (mid : String)
    (net : String → Nat × String) (regexSearch : RePat → String → Option String)
    (hok : ¬(400 ≤ (net (eurl mid)).1 ∧ (net (eurl mid)).1 < 600)) :
    (∀ a b c, regexSearch RePat.inchiPat (net (eurl mid)).2 = some a →
      regexSearch RePat.inchikeyPat (net (eurl mid)).2 = some b →
      regexSearch RePat.smilesPat (net (eurl mid)).2 = some c →
      (ecocyc_lookup mid net regexSearch).2 =
        Except.ok ⟨PyVal.pyStr a, PyVal.pyStr b, PyVal.pyStr c, PyVal.pyStr mid⟩) ∧
    (¬((regexSearch RePat.inchiPat (net (eurl mid)).2).isSome = true ∧
       (regexSearch RePat.inchikeyPat (net (eurl mid)).2).isSome = true ∧
       (regexSearch RePat.smilesPat (net (eurl mid)).2).isSome = true) →
      (ecocyc_lookup mid net regexSearch).2 =
        Except.ok ⟨toMVal (regexSearch RePat.inchiPat (net (eurl mid)).2),
          toMVal (regexSearch RePat.inchikeyPat (net (eurl mid)).2),
          toMVal (regexSearch RePat.smilesPat (net (eurl mid)).2),
          PyVal.pyStr mid⟩) := by
  constructor
  · intro a b c ha hb hc
    unfold ecocyc_lookup
    rw [if_neg hok, ha, hb, hc]
  · intro hnot
    unfold ecocyc_lookup
    rw [if_neg hok]
    cases hi : regexSearch RePat.inchiPat (net (eurl mid)).2 <;>
      cases hk : regexSearch RePat.inchikeyPat (net (eurl mid)).2 <;>
        cases hs : regexSearch RePat.smilesPat (net (eurl mid)).2 <;>
          first
            | rfl
            | simp [hi, hk, hs] at hnot

/-- C9, witness: the InChIKey pattern misses, so the InChI and SMILES hits
come back as unconverted match objects and the InChIKey as `None`. -/
theorem ecocyc_lookup_all_or_nothing_witness :
    (ecocyc_lookup "EG10241" c9netExample c9rsExample).2 =
      Except.ok ⟨PyVal.pyMatchObj "X", PyVal.pyNone, PyVal.pyMatchObj "Y",
        PyVal.pyStr "EG10241"⟩ :=
  (ecocyc_lookup_all_or_nothing "EG10241" c9netExample c9rsExample (by decide)).2
    (by decide)

/-- Unfolding equation for `build_ambiguousrow` when both optional
arguments are given: the option match reduces away. -/
theorem build_ambiguousrow_some_eq (ogrow : Row) (m1 m2 : Cdf) (db1 db2 : Int) :
    build_ambiguousrow ogrow m1 db1 (some m2) (some db2) =
      match process_ogrow ogrow with
      | .error e => .error e
      | .ok (d, row2) =>
        match getdict_ambiguousinfo m1 db1 with
        | .error e => .error e
        | .ok (u1, m1r) =>
          match getdict_ambiguousinfo m2 db2 with
          | .error e => .error e
          | .ok (u2, m2r) =>
            .ok (dictUpdate (dictUpdate d u1) u2, row2, m1r, some m2r) := by
  unfold build_ambiguousrow
  rfl

/-- C10: `build_ambiguousrow` mutates its arguments in place: on success
the caller's row has lost exactly its `EcoCyc` and `HMDB` entries while
every other entry is kept unchanged (the row becomes a filter of the
original), and each caller info dataframe has every column renamed with
the `e` or `h` prefix while the cell lists are untouched (the dataframe
becomes a column-name map of the original). -/
theorem build_ambiguousrow_mutation (row : Row) (m1 m2 : Cdf) (d : Dict)
    (row2 : Row) (m1r : Cdf) (m2r : Option Cdf)
    (h : build_ambiguousrow row m1 ecocyc (some m2) (some hmdb) =
      Except.ok (d, row2, m1r, m2r)) :
    row2 = row.filter (fun p => !(p.1 == "EcoCyc" || p.1 == "HMDB")) ∧
    m1r = m1.map (fun c => ("e" ++ c.1, c.2)) ∧
    m2r = some (m2.map (fun c => ("h" ++ c.1, c.2))) := by
  rw [build_ambiguousrow_some_eq] at h
  cases hpo : process_ogrow row with
  | error e => rw [hpo] at h; cases h
  | ok pr0 =>
    obtain ⟨d0, r2⟩ := pr0
    rw [hpo] at h
    cases hg1 : getdict_ambiguousinfo m1 ecocyc with
    | error e => rw [hg1] at h; cases h
    | ok u1m =>
      obtain ⟨u1, m1x⟩ := u1m
      rw [hg1] at h
      cases hg2 : getdict_ambiguousinfo m2 hmdb with
      | error e => rw [hg2] at h; cases h
      | ok u2m =>
        obtain ⟨u2, m2x⟩ := u2m
        rw [hg2] at h
        have h2 : (Except.ok (dictUpdate (dictUpdate d0 u1) u2, r2, m1x, some m2x) :
            Except PyError (Dict × Row × Cdf × Option Cdf)) =
            Except.ok (d, row2, m1r, m2r) := h
        injection h2 with h3
        refine ⟨?_, ?_, ?_⟩
        · have hrow : row2 = r2 := (congrArg (fun q => q.2.1) h3).symm
          rw [hrow]
          exact process_ogrow_ok_eq row (d0, r2) hpo
        · have hm1 : m1r = m1x := (congrArg (fun q => q.2.2.1) h3).symm
          rw [hm1]
          exact getdict_ok_rename m1 ecocyc u1 m1x (Or.inl rfl) hg1
        · have hm2 : m2r = some m2x := (congrArg (fun q => q.2.2.2) h3).symm
          rw [hm2]
          rw [getdict_ok_rename m2 hmdb u2 m2x (Or.inr rfl) hg2]
          rfl

/-- C10, witness: a concrete row and two one-column dataframes show the
drop and the prefix renames. -/
theorem build_ambiguousrow_mutation_witness :
    [("Protein", PyVal.pyStr "thrA")] =
      ([("Protein", PyVal.pyStr "thrA"), ("EcoCyc", PyVal.pyStr "e1"),
        ("HMDB", PyVal.pyStr "h1")] : Row).filter
        (fun p => !(p.1 == "EcoCyc" || p.1 == "HMDB")) ∧
    ([("eInChI", [some "i"])] : Cdf) =
      ([("InChI", [some "i"])] : Cdf).map (fun c => ("e" ++ c.1, c.2)) ∧
    (some [("hSMILES", [some "s"])] : Option Cdf) =
      some (([("SMILES", [some "s"])] : Cdf).map (fun c => ("h" ++ c.1, c.2))) :=
  build_ambiguousrow_mutation
    [("Protein", PyVal.pyStr "thrA"), ("EcoCyc", PyVal.pyStr "e1"),
     ("HMDB", PyVal.pyStr "h1")]
    [("InChI", [some "i"])] [("SMILES", [some "s"])]
    [("Protein", PyVal.pyStr "thrA"), ("eInChI", PyVal.pyStr "i"),
     ("hSMILES", PyVal.pyStr "s")]
    [("Protein", PyVal.pyStr "thrA")]
    [("eInChI", [some "i"])] (some [("hSMILES", [some "s"])]) rfl

end IdentifyLigands
